import Mathlib

/-!
Shallow embedding of `src/client.rs` of getsentry/hyper-tls: the
`HttpsConnector` service, its constructors, the `https_only` setter, the
`call` method (`impl Service<Uri> for HttpsConnector<T>`), and the
`HttpsConnecting` future it returns.

Modelling conventions:
* `Uri` keeps exactly the two accessors `call` uses: `scheme_str()` and
  `host()`.
* The raw connector `T` is modelled as a function from `Uri` to the
  eventual result of awaiting its per-call operation
  (`Except ε RawStream`); the TLS connector is modelled as a function
  from server-name and wrapped stream to the eventual handshake result.
* Rust `Instant::now()` is modelled by a caller-supplied monotonic clock
  `clock : Nat → Nat`, read at index 0 for `tls_start` (line 155) and at
  index 1 for `tls_end` (line 157).
* `call` takes `&mut self`; the translation is state-passing: it returns
  the connector after the call, the future, and whether `self.http.call`
  was reached (line 145).  Driving the future likewise reports whether
  the TLS connector's `connect` was reached (line 156).
* Errors: `BoxError` is the sum of the policy error
  `ForceHttpsButUriNotHttps` (line 206), raw-connect errors boxed via
  `map_err(Into::into)` (line 150), and handshake errors boxed via `?`
  (line 156).
-/

/-- Connection statistics record, as used at lines 160–168 of
`client.rs` (hyper's `rt::ConnectionStats`): process start time, DNS
resolve start/end, raw connect start/end, TLS connect start/end.
Instants are modelled as `Nat`. -/
structure ConnectionStats where
  start_time : Nat
  dns_resolve_start : Option Nat
  dns_resolve_end : Option Nat
  connect_start : Option Nat
  connect_end : Option Nat
  tls_connect_start : Option Nat
  tls_connect_end : Option Nat
deriving DecidableEq, Repr

/-- The raw connector's response stream (`T::Response`): an abstract
connected stream identified by `id`, reporting optional stats through
the `Stats` trait method `stats()` (used at line 153). -/
structure RawStream where
  id : Nat
  stats : Option ConnectionStats
deriving DecidableEq, Repr

/-- `TokioIo::new(inner, stats)` wrapper (lines 154 and 158–169): pairs
a stream with an optional stats record. -/
structure TokioIo (α : Type) where
  inner : α
  stats : Option ConnectionStats
deriving DecidableEq, Repr

/-- `MaybeHttpsStream` (from `crate::stream`): `Http` holds the raw
stream (line 172), `Https` holds the `TokioIo`-wrapped TLS stream
(line 170). -/
inductive MaybeHttpsStream (S TS : Type) where
  | http (s : S)
  | https (t : TokioIo TS)
deriving DecidableEq, Repr

/-- `BoxError = Box<dyn Error + Send + Sync>` (line 15), as the sum of
the three error sources of `call`: the policy error
`ForceHttpsButUriNotHttps` (lines 137, 205–214), a boxed raw-connect
error (line 150), and a boxed handshake error (line 156). -/
inductive BoxError (ε τ : Type) where
  | forceHttpsButUriNotHttps
  | raw (e : ε)
  | tls (e : τ)
deriving DecidableEq, Repr

/-- The slice of `hyper::Uri` that `call` reads: `scheme_str()`
(line 134) and `host()` (line 141). -/
structure Uri where
  scheme_str : Option String
  host : Option String
deriving DecidableEq, Repr

/-- The character predicate of line 143: `|c| c == '[' || c == ']'`. -/
def isBracketChar (c : Char) : Bool :=
  c = '[' || c = ']'

/-- Rust `str::trim_matches` with the predicate of line 143: strip all
leading and all trailing matching characters. -/
def trimBrackets (s : String) : String :=
  ⟨((s.data.dropWhile isBracketChar).reverse.dropWhile isBracketChar).reverse⟩

/-- Host extraction, lines 140–144:
`dst.host().unwrap_or("").trim_matches(|c| c == '[' || c == ']')`. -/
def extractHost (dst : Uri) : String :=
  trimBrackets (dst.host.getD "")

/-- The raw connector `T`, modelled by the eventual result of awaiting
its per-call operation (`self.http.call(dst)` at line 145, awaited at
line 150). -/
abbrev RawConnector (ε : Type) := Uri → Except ε RawStream

/-- The TLS connector, modelled by the eventual result of awaiting
`tls_connector.connect(&host, stream)` (line 156). -/
abbrev TlsConnectorFn (τ TS : Type) := String → TokioIo RawStream → Except τ TS

/-- `HttpsConnector<T>` (lines 18–23). -/
structure HttpsConnector (T TlsC : Type) where
  force_https : Bool
  http : T
  tls : TlsC

/-- `HttpsConnecting<T>` (lines 176, 180–187), the future returned by
`call`: either already failed (constructed by `err`, lines 180–182) or
the staged computation of lines 149–175, which captured `is_https`, the
extracted `host`, the raw connector's in-flight operation `connecting`,
and the cloned TLS connector (line 147). -/
inductive HttpsConnecting (ε τ TS : Type) where
  | failed (e : BoxError ε τ)
  | run (is_https : Bool) (host : String) (connecting : Except ε RawStream)
      (tls_connector : TlsConnectorFn τ TS)

/-- Result of `call`: the connector after the call (`&mut self`
state-passing), the returned future, and whether `self.http.call` was
invoked (line 145). -/
structure CallResult (ε τ TS : Type) where
  selfAfter : HttpsConnector (RawConnector ε) (TlsConnectorFn τ TS)
  future : HttpsConnecting ε τ TS
  rawInvoked : Bool

/-- `fn call(&mut self, dst: Uri)` (lines 133–177): compute
`is_https`, early-abort with the policy error when
`!is_https && self.force_https` (lines 136–138, never reaching the raw
connector), otherwise extract the host, invoke the raw connector
(line 145), clone the TLS connector (line 147) and return the staged
future. -/
def HttpsConnector.call {ε τ TS : Type}
    (self : HttpsConnector (RawConnector ε) (TlsConnectorFn τ TS))
    (dst : Uri) : CallResult ε τ TS :=
  let is_https := dst.scheme_str == some "https"
  if !is_https && self.force_https then
    { selfAfter := self
      future := .failed .forceHttpsButUriNotHttps
      rawInvoked := false }
  else
    let host := extractHost dst
    let connecting := self.http dst
    let tls_connector := self.tls
    { selfAfter := self
      future := .run is_https host connecting tls_connector
      rawInvoked := true }

/-- The stats merge of lines 158–168: on `Some s`, copy the five fields
reported by the raw connector verbatim and populate the two TLS fields;
on `None`, stay `None` (`stats.map`). -/
def mergeTlsStats (stats : Option ConnectionStats) (tls_start tls_end : Nat) :
    Option ConnectionStats :=
  stats.map fun s =>
    { start_time := s.start_time
      dns_resolve_start := s.dns_resolve_start
      dns_resolve_end := s.dns_resolve_end
      connect_start := s.connect_start
      connect_end := s.connect_end
      tls_connect_start := some tls_start
      tls_connect_end := some tls_end }

/-- Result of driving an `HttpsConnecting` future to completion: the
`Result` it resolves to, and whether the TLS connector's `connect` was
invoked (line 156). -/
structure DriveResult (ε τ TS : Type) where
  result : Except (BoxError ε τ) (MaybeHttpsStream RawStream TS)
  handshakeInvoked : Bool

/-- Driving the future of lines 149–175 (and the already-failed future
of lines 180–182) to completion: await the raw connection (line 150,
boxing its error); if `is_https`, snapshot `tcp.stats()`, wrap the
stream with no stats, read the clock, run the handshake (propagating
its error), read the clock again, merge stats and produce `Https`;
otherwise produce `Http(tcp)` directly. -/
def HttpsConnecting.drive {ε τ TS : Type} (fut : HttpsConnecting ε τ TS)
    (clock : Nat → Nat) : DriveResult ε τ TS :=
  match fut with
  | .failed e => { result := .error e, handshakeInvoked := false }
  | .run is_https host connecting tls_connector =>
    match connecting with
    | .error e => { result := .error (.raw e), handshakeInvoked := false }
    | .ok tcp =>
      if is_https then
        let stats := tcp.stats
        let stream : TokioIo RawStream := { inner := tcp, stats := none }
        let tls_start := clock 0
        match tls_connector host stream with
        | .error e => { result := .error (.tls e), handshakeInvoked := true }
        | .ok tls_stream =>
          let tls_end := clock 1
          let tls : TokioIo TS :=
            { inner := tls_stream, stats := mergeTlsStats stats tls_start tls_end }
          { result := .ok (.https tls), handshakeInvoked := true }
      else
        { result := .ok (.http tcp), handshakeInvoked := false }

/-- `impl From<(T, TlsConnector)> for HttpsConnector<T>` (lines 95–103):
builds the connector with `force_https: false`. -/
def HttpsConnector.fromPair {T TlsC : Type} (args : T × TlsC) :
    HttpsConnector T TlsC :=
  { force_https := false, http := args.1, tls := args.2 }

/-- `fn https_only(&mut self, enable: bool)` (lines 70–72): sets
`self.force_https = enable`. -/
def HttpsConnector.https_only {T TlsC : Type} (self : HttpsConnector T TlsC)
    (enable : Bool) : HttpsConnector T TlsC :=
  { self with force_https := enable }

/-- Outcome of a constructor that may panic: `fatal` models a process
abort via `panic!`, carrying the formatted message. -/
inductive Startup (α : Type) where
  | fatal (msg : String)
  | ok (a : α)
deriving DecidableEq, Repr

/-- Modelled from the spec: hyper-util's `HttpConnector` (an external
collaborator, not in this repository) reduced to the one knob `new_`
touches, the `enforce_http` flag set by `http.enforce_http(false)` at
line 55; `HttpConnector::new()` starts with HTTP-only enforcement
enabled. -/
structure HttpConnector where
  enforce_http : Bool
deriving DecidableEq, Repr

/-- `HttpConnector::new()` for the model above. -/
def HttpConnector.new : HttpConnector :=
  { enforce_http := true }

/-- `http.enforce_http(b)` for the model above. -/
def HttpConnector.set_enforce_http (_c : HttpConnector) (b : Bool) :
    HttpConnector :=
  { enforce_http := b }

/-- `fn new_(tls)` (lines 53–57): build a default raw connector, disable
HTTP-scheme enforcement, and delegate to `From`. -/
def HttpsConnector.new_ {TlsC : Type} (tls : TlsC) :
    HttpsConnector HttpConnector TlsC :=
  let http := HttpConnector.new.set_enforce_http false
  HttpsConnector.fromPair (http, tls)

/-- `HttpsConnector::new()` (lines 46–51): the caller-visible outcome of
`native_tls::TlsConnector::new()` is the argument `build`; on failure
the process panics with the formatted message, on success `new_` runs. -/
def HttpsConnector.new {TlsC : Type} (build : Except String TlsC) :
    Startup (HttpsConnector HttpConnector TlsC) :=
  match build with
  | .error e => .fatal ("HttpsConnector::new() failure: " ++ e)
  | .ok tls => .ok (HttpsConnector.new_ tls)

/-- `fn new_with_connector(http)` (lines 82–92): same shape as `new`
but with a caller-supplied raw connector and its own panic message. -/
def HttpsConnector.new_with_connector {T TlsC : Type} (http : T)
    (build : Except String TlsC) : Startup (HttpsConnector T TlsC) :=
  match build with
  | .error e =>
      .fatal ("HttpsConnector::new_with_connector(<connector>) failure: " ++ e)
  | .ok tls => .ok (HttpsConnector.fromPair (http, tls))

/-- `impl Default for HttpsConnector<T>` (lines 60–64):
`Self::new_with_connector(Default::default())`, with `T`'s default
value passed explicitly. -/
def HttpsConnector.defaultConnector {T TlsC : Type} (dflt : T)
    (build : Except String TlsC) : Startup (HttpsConnector T TlsC) :=
  HttpsConnector.new_with_connector dflt build

/-- The non-panicking construction path documented at lines 43–44 and
80–81: the caller runs `native_tls::TlsConnector::new()` itself (result
`build`) and feeds a success into `From`; a failure stays a recoverable
`Err` in the caller's hands. -/
def HttpsConnector.tryFromBuild {T TlsC : Type} (http : T)
    (build : Except String TlsC) : Except String (HttpsConnector T TlsC) :=
  build.map fun tls => HttpsConnector.fromPair (http, tls)

/-! ## Concrete instances used by the witnesses -/

/-- A raw connector whose per-call operation always fails with error 7. -/
def wRawFail : RawConnector Nat := fun _ => .error 7

/-- Stats record as a raw connector would report it (TLS fields empty). -/
def wStats : ConnectionStats :=
  { start_time := 2, dns_resolve_start := some 3, dns_resolve_end := some 4
    connect_start := some 5, connect_end := some 6
    tls_connect_start := none, tls_connect_end := none }

/-- A connected raw stream carrying `wStats`. -/
def wStream : RawStream := { id := 1, stats := some wStats }

/-- A raw connector whose per-call operation always succeeds with `wStream`. -/
def wRawOk : RawConnector Nat := fun _ => .ok wStream

/-- A TLS connector whose handshake always fails with error 5. -/
def wTlsFail : TlsConnectorFn Nat Nat := fun _ _ => .error 5

/-- A TLS connector whose handshake always succeeds with stream 9. -/
def wTlsOk : TlsConnectorFn Nat Nat := fun _ _ => .ok 9

/-- An `http`-scheme target. -/
def wHttpUri : Uri := { scheme_str := some "http", host := some "example.com" }

/-- An `https`-scheme target. -/
def wHttpsUri : Uri := { scheme_str := some "https", host := some "example.com" }

/-! ## The claims -/

/-- C1: for every URI whose scheme is not "https", when `force_https` is
true, `call` returns an already-failed future carrying
`ForceHttpsButUriNotHttps`, the raw connector's `call` is never invoked,
and driving the future performs no handshake. -/
theorem call_forced_https_policy_abort {ε τ TS : Type}
    (self : HttpsConnector (RawConnector ε) (TlsConnectorFn τ TS))
    (dst : Uri) (clock : Nat → Nat)
    (hscheme : dst.scheme_str ≠ some "https")
    (hforce : self.force_https = true) :
    (self.call dst).future = .failed .forceHttpsButUriNotHttps
    ∧ (self.call dst).rawInvoked = false
    ∧ ((self.call dst).future.drive clock).result
        = .error .forceHttpsButUriNotHttps
    ∧ ((self.call dst).future.drive clock).handshakeInvoked = false := by
  have h : (dst.scheme_str == some "https") = false := by simpa using hscheme
  refine ⟨?_, ?_, ?_, ?_⟩ <;>
    simp [HttpsConnector.call, HttpsConnecting.drive, h, hforce]

/-- Witness for C1 at the concrete `http` URI and a connector with
`force_https = true`. -/
theorem call_forced_https_policy_abort_w :
    wHttpUri.scheme_str ≠ some "https"
    ∧ (HttpsConnector.mk true wRawOk wTlsOk).force_https = true
    ∧ ((HttpsConnector.mk true wRawOk wTlsOk).call wHttpUri).rawInvoked = false :=
  ⟨by decide, rfl,
    (call_forced_https_policy_abort (HttpsConnector.mk true wRawOk wTlsOk)
      wHttpUri (fun n => n) (by decide) rfl).2.1⟩

/-- C2: for every `https` URI, when the raw connect and the handshake
both succeed, the future resolves to the `Https` (encrypted) variant,
and whenever the raw connector supplied stats the merged record has
both TLS timestamps present with start ≤ end. -/
theorem call_https_success_encrypted {ε τ TS : Type}
    (self : HttpsConnector (RawConnector ε) (TlsConnectorFn τ TS))
    (dst : Uri) (tcp : RawStream) (ts : TS) (clock : Nat → Nat)
    (hscheme : dst.scheme_str = some "https")
    (hraw : self.http dst = .ok tcp)
    (htls : self.tls (extractHost dst) { inner := tcp, stats := none } = .ok ts)
    (hclock : clock 0 ≤ clock 1) :
    ((self.call dst).future.drive clock).result
      = .ok (.https
          (TokioIo.mk ts (mergeTlsStats tcp.stats (clock 0) (clock 1))))
    ∧ ∀ s, tcp.stats = some s →
        ∃ m, mergeTlsStats tcp.stats (clock 0) (clock 1) = some m
          ∧ m.tls_connect_start = some (clock 0)
          ∧ m.tls_connect_end = some (clock 1)
          ∧ clock 0 ≤ clock 1 := by
  have h : (dst.scheme_str == some "https") = true := by simp [hscheme]
  constructor
  · simp [HttpsConnector.call, HttpsConnecting.drive, h, hraw, htls]
  · intro s hs
    refine ⟨ConnectionStats.mk s.start_time s.dns_resolve_start
        s.dns_resolve_end s.connect_start s.connect_end
        (some (clock 0)) (some (clock 1)), ?_, rfl, rfl, hclock⟩
    simp [mergeTlsStats, hs]

/-- Witness for C2 at the concrete `https` URI with succeeding raw
connector and handshake and the identity clock. -/
theorem call_https_success_encrypted_w :
    wHttpsUri.scheme_str = some "https"
    ∧ wRawOk wHttpsUri = .ok wStream
    ∧ wTlsOk (extractHost wHttpsUri) { inner := wStream, stats := none } = .ok 9
    ∧ (fun n => n : Nat → Nat) 0 ≤ (fun n => n : Nat → Nat) 1
    ∧ (((HttpsConnector.mk false wRawOk wTlsOk).call wHttpsUri).future.drive
        (fun n => n)).result
      = .ok (.https { inner := 9, stats := mergeTlsStats wStream.stats 0 1 }) :=
  ⟨rfl, rfl, rfl, by decide,
    (call_https_success_encrypted (HttpsConnector.mk false wRawOk wTlsOk)
      wHttpsUri wStream 9 (fun n => n) rfl rfl rfl (by decide)).1⟩

/-- C3: for every non-`https` URI, when `force_https` is false and the
raw connect succeeds, the future resolves to the `Http` (plain) variant
holding the raw stream, and the handshake provider is never invoked. -/
theorem call_http_plain {ε τ TS : Type}
    (self : HttpsConnector (RawConnector ε) (TlsConnectorFn τ TS))
    (dst : Uri) (tcp : RawStream) (clock : Nat → Nat)
    (hscheme : dst.scheme_str ≠ some "https")
    (hforce : self.force_https = false)
    (hraw : self.http dst = .ok tcp) :
    ((self.call dst).future.drive clock).result = .ok (.http tcp)
    ∧ ((self.call dst).future.drive clock).handshakeInvoked = false := by
  have h : (dst.scheme_str == some "https") = false := by simpa using hscheme
  refine ⟨?_, ?_⟩ <;>
    simp [HttpsConnector.call, HttpsConnecting.drive, h, hforce, hraw]

/-- Witness for C3 at the concrete `http` URI with a succeeding raw
connector and `force_https = false`. -/
theorem call_http_plain_w :
    wHttpUri.scheme_str ≠ some "https"
    ∧ (HttpsConnector.mk false wRawOk wTlsOk).force_https = false
    ∧ wRawOk wHttpUri = .ok wStream
    ∧ (((HttpsConnector.mk false wRawOk wTlsOk).call wHttpUri).future.drive
        (fun n => n)).result = .ok (.http wStream) :=
  ⟨by decide, rfl, rfl,
    (call_http_plain (HttpsConnector.mk false wRawOk wTlsOk) wHttpUri wStream
      (fun n => n) (by decide) rfl rfl).1⟩

/-- C4: whenever `call` actually delegated to the raw connector
(`rawInvoked`), a failure of the raw per-call operation makes the
future resolve to exactly that raw error (boxed, not replaced), and the
handshake provider is never invoked. -/
theorem call_raw_failure_propagates {ε τ TS : Type}
    (self : HttpsConnector (RawConnector ε) (TlsConnectorFn τ TS))
    (dst : Uri) (e : ε) (clock : Nat → Nat)
    (hinv : (self.call dst).rawInvoked = true)
    (hraw : self.http dst = .error e) :
    ((self.call dst).future.drive clock).result = .error (.raw e)
    ∧ ((self.call dst).future.drive clock).handshakeInvoked = false := by
  by_cases hc : (!(dst.scheme_str == some "https") && self.force_https) = true
  · exfalso
    have hfalse : (self.call dst).rawInvoked = false := by
      simp [HttpsConnector.call, hc]
    rw [hfalse] at hinv
    exact Bool.false_ne_true hinv
  · have hc' : (!(dst.scheme_str == some "https") && self.force_https) = false := by
      simpa using hc
    refine ⟨?_, ?_⟩ <;>
      simp [HttpsConnector.call, HttpsConnecting.drive, hc', hraw]

/-- Witness for C4 at the concrete `https` URI and a failing raw
connector. -/
theorem call_raw_failure_propagates_w :
    ((HttpsConnector.mk false wRawFail wTlsOk).call wHttpsUri).rawInvoked = true
    ∧ wRawFail wHttpsUri = .error 7
    ∧ (((HttpsConnector.mk false wRawFail wTlsOk).call wHttpsUri).future.drive
        (fun n => n)).result = .error (.raw 7) :=
  ⟨rfl, rfl,
    (call_raw_failure_propagates (HttpsConnector.mk false wRawFail wTlsOk)
      wHttpsUri 7 (fun n => n) rfl rfl).1⟩

/-- C5: for every `https` URI, when the raw connect succeeds but the
handshake fails, the future resolves to exactly that handshake error
(boxed), and no stream value is ever produced. -/
theorem call_handshake_failure_propagates {ε τ TS : Type}
    (self : HttpsConnector (RawConnector ε) (TlsConnectorFn τ TS))
    (dst : Uri) (tcp : RawStream) (e : τ) (clock : Nat → Nat)
    (hscheme : dst.scheme_str = some "https")
    (hraw : self.http dst = .ok tcp)
    (htls : self.tls (extractHost dst) { inner := tcp, stats := none }
      = .error e) :
    ((self.call dst).future.drive clock).result = .error (.tls e)
    ∧ ∀ ms, ((self.call dst).future.drive clock).result ≠ .ok ms := by
  have h : (dst.scheme_str == some "https") = true := by simp [hscheme]
  have hr : ((self.call dst).future.drive clock).result = .error (.tls e) := by
    simp [HttpsConnector.call, HttpsConnecting.drive, h, hraw, htls]
  exact ⟨hr, fun ms hms => by rw [hr] at hms; exact Except.noConfusion hms⟩

/-- Witness for C5 at the concrete `https` URI, succeeding raw
connector, failing handshake. -/
theorem call_handshake_failure_propagates_w :
    wHttpsUri.scheme_str = some "https"
    ∧ wRawOk wHttpsUri = .ok wStream
    ∧ wTlsFail (extractHost wHttpsUri) { inner := wStream, stats := none }
        = .error 5
    ∧ (((HttpsConnector.mk false wRawOk wTlsFail).call wHttpsUri).future.drive
        (fun n => n)).result = .error (.tls 5) :=
  ⟨rfl, rfl, rfl,
    (call_handshake_failure_propagates (HttpsConnector.mk false wRawOk wTlsFail)
      wHttpsUri wStream 5 (fun n => n) rfl rfl rfl).1⟩

/-- C6: the stats merge preserves every raw-connector field verbatim
(process start, DNS resolve start/end, connect start/end) and newly
populates exactly the two TLS fields; on `none` it yields `none`, never
a partially-filled record. -/
theorem mergeTlsStats_preserves_raw_fields (s : ConnectionStats) (a b : Nat) :
    mergeTlsStats (some s) a b
      = some { start_time := s.start_time
               dns_resolve_start := s.dns_resolve_start
               dns_resolve_end := s.dns_resolve_end
               connect_start := s.connect_start
               connect_end := s.connect_end
               tls_connect_start := some a
               tls_connect_end := some b }
    ∧ mergeTlsStats none a b = none :=
  ⟨rfl, rfl⟩

/-- A TLS connector that records, as its error, the server name it was
invoked with: driving a call through it reveals exactly the string
passed to the handshake provider's server-name parameter. -/
def recordTls : TlsConnectorFn String Nat := fun host _ => .error host

/-- A raw connector that always yields a fixed stream without stats. -/
def plainRaw : RawConnector Nat := fun _ => .ok (RawStream.mk 0 none)

/-- C7: the server name passed to the handshake provider is the URI
host with brackets stripped: for host `[::1]` it is `::1`, for
`example.com` it is unchanged, and for a URI with no host it is the
empty string (observed through a handshake provider that reports the
server name it received). -/
theorem host_extraction_server_name :
    (((HttpsConnector.mk false plainRaw recordTls).call
        (Uri.mk (some "https") (some "[::1]"))).future.drive
        (fun n => n)).result = .error (.tls "::1")
    ∧ (((HttpsConnector.mk false plainRaw recordTls).call
        (Uri.mk (some "https") (some "example.com"))).future.drive
        (fun n => n)).result = .error (.tls "example.com")
    ∧ (((HttpsConnector.mk false plainRaw recordTls).call
        (Uri.mk (some "https") none)).future.drive
        (fun n => n)).result = .error (.tls "") := by
  refine ⟨?_, ?_, ?_⟩ <;> rfl

/-- C8: when the TLS context cannot be built, `new`,
`new_with_connector` and the `Default` path all panic (abort), while
the documented alternate path through `From` keeps the failure as a
recoverable `Err` for the caller. -/
theorem construction_failure_paths (T TlsC : Type) (http : T) (e : String) :
    HttpsConnector.new (Except.error e : Except String TlsC)
      = .fatal ("HttpsConnector::new() failure: " ++ e)
    ∧ HttpsConnector.new_with_connector http (Except.error e : Except String TlsC)
      = .fatal ("HttpsConnector::new_with_connector(<connector>) failure: " ++ e)
    ∧ HttpsConnector.defaultConnector http (Except.error e : Except String TlsC)
      = .fatal ("HttpsConnector::new_with_connector(<connector>) failure: " ++ e)
    ∧ HttpsConnector.tryFromBuild http (Except.error e : Except String TlsC)
      = Except.error e :=
  ⟨rfl, rfl, rfl, rfl⟩

/-- The post-call mutation scenario: perform a call, then flip the flag
through `https_only` on the service the call handed back; returns the
future the call had already created together with the mutated service. -/
def callThenToggle {ε τ TS : Type}
    (self : HttpsConnector (RawConnector ε) (TlsConnectorFn τ TS))
    (dst : Uri) (b : Bool) :
    HttpsConnecting ε τ TS × HttpsConnector (RawConnector ε) (TlsConnectorFn τ TS) :=
  let r := self.call dst
  let mutated := r.selfAfter.https_only b
  (r.future, mutated)

/-- C9: `https_only` writes only `force_https`; `call` hands the
service back with every field unchanged; and flipping the flag after a
call has returned leaves the already-created future (and hence its
drive outcome) exactly the one the original call produced. -/
theorem force_https_flag_isolation {ε τ TS : Type}
    (self : HttpsConnector (RawConnector ε) (TlsConnectorFn τ TS))
    (b : Bool) (dst : Uri) (clock : Nat → Nat) :
    (self.https_only b).force_https = b
    ∧ (self.https_only b).http = self.http
    ∧ (self.https_only b).tls = self.tls
    ∧ (self.call dst).selfAfter = self
    ∧ (callThenToggle self dst b).1 = (self.call dst).future
    ∧ ((callThenToggle self dst b).1.drive clock
        = (self.call dst).future.drive clock)
    ∧ (callThenToggle self dst b).2.force_https = b := by
  have hself : (self.call dst).selfAfter = self := by
    by_cases hc : (!(dst.scheme_str == some "https") && self.force_https) = true
    · simp [HttpsConnector.call, hc]
    · have hc' : (!(dst.scheme_str == some "https") && self.force_https) = false := by
        simpa using hc
      simp [HttpsConnector.call, hc']
  exact ⟨rfl, rfl, rfl, hself, rfl, rfl, rfl⟩

/-- C10: every construction path (`From`, `new`, `new_with_connector`,
`Default`) yields `force_https = false`, and a service with
`force_https = false` never produces the policy-violation error for any
URI: the future is never the already-failed one and its drive outcome
is never that error. -/
theorem fresh_connector_flag_false {T TlsC : Type} (http dflt : T)
    (tls tlsC : TlsC) {ε τ TS : Type}
    (c : HttpsConnector (RawConnector ε) (TlsConnectorFn τ TS))
    (dst : Uri) (clock : Nat → Nat)
    (hfresh : c.force_https = false) :
    (HttpsConnector.fromPair (http, tls)).force_https = false
    ∧ HttpsConnector.new (Except.ok tlsC : Except String TlsC)
        = .ok (HttpsConnector.new_ tlsC)
    ∧ (HttpsConnector.new_ tlsC).force_https = false
    ∧ HttpsConnector.new_with_connector http (Except.ok tlsC : Except String TlsC)
        = .ok (HttpsConnector.fromPair (http, tlsC))
    ∧ HttpsConnector.defaultConnector dflt (Except.ok tlsC : Except String TlsC)
        = .ok (HttpsConnector.fromPair (dflt, tlsC))
    ∧ (c.call dst).future ≠ .failed .forceHttpsButUriNotHttps
    ∧ ((c.call dst).future.drive clock).result
        ≠ .error .forceHttpsButUriNotHttps := by
  have hcond : (!(dst.scheme_str == some "https") && c.force_https) = false := by
    simp [hfresh]
  refine ⟨rfl, rfl, rfl, rfl, rfl, ?_, ?_⟩
  · simp [HttpsConnector.call, hcond]
  · rcases hr : c.http dst with e | tcp
    · simp [HttpsConnector.call, HttpsConnecting.drive, hcond, hr]
    · by_cases hs : (dst.scheme_str == some "https") = true
      · rcases ht : c.tls (extractHost dst) { inner := tcp, stats := none }
          with e2 | ts
        · simp [HttpsConnector.call, HttpsConnecting.drive, hcond, hr, hs, ht]
        · simp [HttpsConnector.call, HttpsConnecting.drive, hcond, hr, hs, ht]
      · have hs' : (dst.scheme_str == some "https") = false := by simpa using hs
        simp [HttpsConnector.call, HttpsConnecting.drive, hfresh, hr, hs']

/-- Witness for C10 at a concrete freshly-constructed service, `http`
URI and identity clock. -/
theorem fresh_connector_flag_false_w :
    (HttpsConnector.mk false wRawOk wTlsOk).force_https = false
    ∧ (HttpsConnector.fromPair ((37 : Nat), (41 : Nat))).force_https = false
    ∧ (((HttpsConnector.mk false wRawOk wTlsOk).call wHttpUri).future.drive
        (fun n => n)).result ≠ .error .forceHttpsButUriNotHttps :=
  ⟨rfl,
    (fresh_connector_flag_false (37 : Nat) (37 : Nat) (41 : Nat) (41 : Nat)
      (HttpsConnector.mk false wRawOk wTlsOk) wHttpUri (fun n => n) rfl).1,
    (fresh_connector_flag_false (37 : Nat) (37 : Nat) (41 : Nat) (41 : Nat)
      (HttpsConnector.mk false wRawOk wTlsOk) wHttpUri (fun n => n) rfl).2.2.2.2.2.2⟩
